import Mathlib

/-!
Verification of the WorthWise ROI/KPI computation engine.

Shallow embedding of `src/backend/app/services/roi_calculator.py`,
`src/backend/app/services/analytics_service.py` and
`src/backend/app/api/v1/compute.py`.

Python integers are embedded as `ℤ`, Python floats as exact rationals `ℚ`
(the formulas are translated literally; float arithmetic is idealised as
exact rational arithmetic).  `None`-able values are embedded as `Option`.
Python truthiness on an optional integer (`if not x`) is false for both
`None` and `0`, which the embedding makes explicit everywhere the source
relies on it.
-/

/-- Python `int(q)`: truncation toward zero. -/
def pyInt (q : ℚ) : ℤ := if 0 ≤ q then ⌊q⌋ else ⌈q⌉

/-- Python `round(q, d)`: rounding to `d` decimal places
(nearest-integer rounding of `q·10^d`, divided back). -/
def pyRound (d : ℕ) (q : ℚ) : ℚ := (round (q * 10 ^ d) : ℤ) / 10 ^ d

/-- Python truthiness of an optional integer: `None` and `0` are falsy. -/
def truthyI (o : Option ℤ) : Bool :=
  match o with
  | none => false
  | some v => v ≠ 0

/-- Python truthiness of an optional rational (e.g. an RPP index). -/
def truthyQ (o : Option ℚ) : Bool :=
  match o with
  | none => false
  | some v => v ≠ 0

/-! ## Financial Formula Library (`roi_calculator.py`, class `ROICalculator`) -/

/-- Default number of program years (`DEFAULT_PROGRAM_YEARS`). -/
def DEFAULT_PROGRAM_YEARS : ℕ := 4

/-- `ROICalculator.calculate_total_cost`:
returns `(true_yearly_cost, housing_annual, other_expenses)`. -/
def calculate_total_cost (tuition_annual housing_annual food_monthly
    transport_monthly utilities_monthly misc_monthly books_annual : ℤ) :
    ℤ × ℤ × ℤ :=
  let food_annual := food_monthly * 12
  let transport_annual := transport_monthly * 12
  let utilities_annual := utilities_monthly * 12
  let misc_annual := misc_monthly * 12
  let other_expenses := food_annual + transport_annual + utilities_annual +
    misc_annual + books_annual
  let true_yearly_cost := tuition_annual + housing_annual + other_expenses
  (true_yearly_cost, housing_annual, other_expenses)

/-- `ROICalculator.calculate_debt`: total debt at graduation, each year's
loan compounded forward to graduation, truncated to an integer. -/
def calculate_debt (yearly_cost aid_annual cash_annual : ℤ)
    (program_years : ℕ) (loan_apr : ℚ) : ℤ :=
  let annual_need : ℤ := max 0 (yearly_cost - aid_annual - cash_annual)
  if annual_need = 0 then 0
  else
    pyInt (∑ year ∈ Finset.range program_years,
      (annual_need : ℚ) * (1 + loan_apr) ^ (program_years - year - 1))

/-- `ROICalculator.calculate_roi`.  The source guard is
`if not earnings_year_5 or total_investment <= 0: return None`, so a
present-but-zero earnings value behaves like an absent one. -/
def calculate_roi (total_investment : ℤ) (earnings_year_5 : Option ℤ) :
    Option ℚ :=
  if ¬ truthyI earnings_year_5 ∨ total_investment ≤ 0 then none
  else
    let e := earnings_year_5.getD 0
    let cumulative_earnings := e * 5
    some (pyRound 2 (((cumulative_earnings : ℚ) - total_investment) /
      total_investment))

/-- `ROICalculator.calculate_payback_period`. -/
def calculate_payback_period (total_debt : ℤ) (earnings_year_1 : Option ℤ)
    (effective_tax_rate : ℚ) (living_expenses_annual : ℤ := 30000) :
    Option ℚ :=
  if ¬ truthyI earnings_year_1 ∨ total_debt ≤ 0 then none
  else
    let e := earnings_year_1.getD 0
    let after_tax_income : ℚ := (e : ℚ) * (1 - effective_tax_rate)
    let disposable_income := after_tax_income - living_expenses_annual
    if disposable_income ≤ 0 then none
    else some (pyRound 1 ((total_debt : ℚ) / disposable_income))

/-- `ROICalculator.calculate_dti`. -/
def calculate_dti (total_debt : ℤ) (earnings_year_1 : Option ℤ) : Option ℚ :=
  if ¬ truthyI earnings_year_1 ∨ earnings_year_1.getD 0 ≤ 0 then none
  else some (pyRound 2 ((total_debt : ℚ) / (earnings_year_1.getD 0 : ℚ)))

/-- The `earnings_score` local of `calculate_comfort_index`
(0-40 points, linear up to a $100k cap). -/
def earningsScore (e : ℤ) : ℚ := min 40 ((e : ℚ) / 100000 * 40)

/-- The `debt_score` local of `calculate_comfort_index`
(0-30 points, inverse in the DTI; 15 when no DTI). -/
def debtScore (dti : Option ℚ) : ℚ :=
  match dti with
  | none => 15
  | some d =>
    if d ≤ 1/2 then 30
    else if 2 ≤ d then 0
    else 30 * (1 - (d - 1/2) / (3/2))

/-- The `grad_score` local of `calculate_comfort_index`
(0-30 points; 15 when no data). -/
def gradScore (graduation_rate : Option ℚ) : ℚ :=
  match graduation_rate with
  | none => 15
  | some g => g * 30

/-- `ROICalculator.calculate_comfort_index`: composite 0-100 score.
`total_debt` is accepted but unused, as in the source. -/
def calculate_comfort_index (earnings_year_1 : Option ℤ) (total_debt : ℤ)
    (dti : Option ℚ) (graduation_rate : Option ℚ) : Option ℚ :=
  if ¬ truthyI earnings_year_1 then none
  else
    some (pyRound 1 (earningsScore (earnings_year_1.getD 0) +
      debtScore dti + gradScore graduation_rate))

/-- `ROICalculator.apply_regional_adjustment`. -/
def apply_regional_adjustment (salary : ℤ) (rpp_index : Option ℚ) : ℤ :=
  match rpp_index with
  | none => salary
  | some r => if r = 0 then salary else pyInt ((salary : ℚ) / (r / 100))

/-- `ROICalculator.calculate_housing_cost`: annual housing cost with the
rent split among `roommate_count + 1` people. -/
def calculate_housing_cost (fmr_monthly : ℤ) (roommate_count : ℤ) : ℤ :=
  let monthly_share : ℚ := (fmr_monthly : ℚ) / (roommate_count + 1)
  pyInt (monthly_share * 12)

/-! ## Scenario Orchestrator (`analytics_service.py`, class `AnalyticsService`)

External lookups are embedded as explicit arguments.  A lookup that can
raise is an `Except String` value (`.error` = the query raised); a query
that can return no row is an `Option`; a row column that can be `NULL` is
a further `Option`. -/

/-- `ComputeRequest` (`schemas/compute.py`): one scenario. -/
structure ComputeRequest where
  institution_id : ℤ
  cip_code : String
  credential_level : ℤ
  is_instate : Bool
  housing_type : String
  roommate_count : ℤ
  postgrad_region_id : Option ℤ
  rent_monthly : Option ℤ
  utilities_monthly : Option ℤ
  food_monthly : Option ℤ
  transport_monthly : Option ℤ
  books_annual : Option ℤ
  misc_monthly : Option ℤ
  aid_annual : ℤ
  cash_annual : ℤ
  loan_apr : ℚ
  effective_tax_rate : ℚ
  deriving Repr, DecidableEq

/-- Row returned by the `programs` query in `get_program_data`
(the money/count columns; every one of them is nullable). -/
structure ProgRow where
  earnings_1yr : Option ℤ
  earnings_4yr : Option ℤ
  earnings_5yr : Option ℤ
  debt_median : Option ℤ
  debt_mean : Option ℤ
  earners_count : Option ℤ
  awards_count : Option ℤ
  deriving Repr, DecidableEq

/-- The dictionary `get_program_data` hands to `compute_kpis`
(restricted to the keys `compute_kpis` reads, which are exactly the keys
of the fallback dictionary). -/
structure ProgData where
  earn_1yr : Option ℤ
  earn_3yr : Option ℤ
  earn_5yr : Option ℤ
  debt_median : Option ℤ
  deriving Repr, DecidableEq

/-- Institution record from `get_institution_data` (every data column of
the underlying row may be `NULL`). -/
structure InstData where
  id : ℤ
  name : String
  state_code : String
  zip : String
  ownership : Option ℤ
  tuition_in_state : Option ℤ
  tuition_out_state : Option ℤ
  avg_net_price_public : Option ℤ
  avg_net_price_private : Option ℤ
  deriving Repr, DecidableEq

/-- `KPIResult` (`schemas/compute.py`). -/
structure KPIResult where
  true_yearly_cost : ℤ
  tuition_fees : ℤ
  housing_annual : ℤ
  other_expenses : ℤ
  expected_debt_at_grad : ℤ
  earnings_year_1 : Option ℤ
  earnings_year_3 : Option ℤ
  earnings_year_5 : Option ℤ
  roi : Option ℚ
  payback_years : Option ℚ
  dti_year_1 : Option ℚ
  graduation_rate : Option ℚ
  comfort_index : Option ℚ
  deriving Repr, DecidableEq

/-- Resolved assumptions dictionary (`get_default_values()` plus the
`rent_source` tag added by `compute_kpis`). -/
structure Assumptions where
  program_years : ℕ
  food_monthly : ℤ
  transport_monthly : ℤ
  books_annual : ℤ
  misc_monthly : ℤ
  utilities_monthly : ℤ
  rent_source : Option String
  deriving Repr, DecidableEq

/-- `ROICalculator.get_default_values` (no `rent_source` key yet). -/
def get_default_values : Assumptions :=
  { program_years := DEFAULT_PROGRAM_YEARS
    food_monthly := 0
    transport_monthly := 0
    books_annual := 0
    misc_monthly := 0
    utilities_monthly := 0
    rent_source := none }

/-- Errors a single-scenario computation can surface to its caller:
`DataNotFoundException` versus any other exception. -/
inductive CompError where
  | dataNotFound (msg : String)
  | generic (msg : String)
  deriving Repr, DecidableEq

/-- `AnalyticsService.get_program_data`: the whole body sits inside
`try/except Exception`, and the `raise DataNotFoundException` for a
missing row is itself caught by that handler; so both a raising query and
a missing row produce the all-`None` fallback record.  A present row gets
`earn_3yr` interpolated when both `earnings_1yr` and `earnings_4yr` are
truthy (present and non-zero). -/
def get_program_data (progRes : Except String (Option ProgRow)) : ProgData :=
  match progRes with
  | .error _ => ⟨none, none, none, none⟩
  | .ok none => ⟨none, none, none, none⟩
  | .ok (some row) =>
    let earn_3yr : Option ℤ :=
      if truthyI row.earnings_1yr && truthyI row.earnings_4yr then
        some (pyInt ((row.earnings_1yr.getD 0 : ℚ) +
          ((row.earnings_4yr.getD 0 : ℚ) -
            (row.earnings_1yr.getD 0 : ℚ)) * (2/3)))
      else none
    ⟨row.earnings_1yr, earn_3yr, row.earnings_5yr, row.debt_median⟩

/-- `AnalyticsService.get_housing_cost`: a raising query (`except: return
None`), a missing row, and a `NULL`/zero rent column all yield `none`. -/
def get_housing_cost (rentRes : Except String (Option (Option ℤ))) :
    Option ℤ :=
  match rentRes with
  | .error _ => none
  | .ok none => none
  | .ok (some col) => if truthyI col then some (col.getD 0) else none

/-- `AnalyticsService.get_regional_rpp`: same shape as the rent lookup. -/
def get_regional_rpp (rppRes : Except String (Option (Option ℚ))) :
    Option ℚ :=
  match rppRes with
  | .error _ => none
  | .ok none => none
  | .ok (some col) => if truthyQ col then some (col.getD 0) else none

/-- Result of the housing-resolution block of `compute_kpis` (step 3). -/
structure HousingResolution where
  fmr_monthly : ℤ
  housing_annual : ℤ
  rent_source : String
  warnings : List String
  deriving Repr, DecidableEq

/-- Housing-resolution block of `compute_kpis`: `housing_type == "none"`
first, then a truthy `rent_monthly` override, else the FMR lookup with the
$1200 fallback and its warning. -/
def resolveHousing (request : ComputeRequest)
    (rentRes : Except String (Option (Option ℤ))) : HousingResolution :=
  if request.housing_type = "none" then
    ⟨0, 0, "none", []⟩
  else if truthyI request.rent_monthly then
    let fmr_monthly := request.rent_monthly.getD 0
    ⟨fmr_monthly,
      calculate_housing_cost fmr_monthly request.roommate_count,
      "user_provided", []⟩
  else
    let fmr0 := get_housing_cost rentRes
    let fmr_monthly := if truthyI fmr0 then fmr0.getD 0 else 1200
    let warns : List String :=
      if truthyI fmr0 then []
      else ["No FMR data for ZIP code - using default $1200/month"]
    ⟨fmr_monthly,
      calculate_housing_cost fmr_monthly request.roommate_count,
      "hud_fmr", warns⟩

/-- Result of the tuition-resolution block of `compute_kpis` (step 6). -/
structure TuitionResolution where
  tuition_fees : ℤ
  warnings : List String
  deriving Repr, DecidableEq

/-- Tuition-resolution block of `compute_kpis`: branches on ownership
(`1` = public, `2` = private nonprofit, anything else = for-profit) and
residency, with truthiness tests on each nullable tuition figure. -/
def resolveTuition (ownership : Option ℤ) (is_instate : Bool)
    (tuition_in_state tuition_out_state
      avg_net_price_public avg_net_price_private : Option ℤ) :
    TuitionResolution :=
  if ownership = some 1 then
    if is_instate && truthyI tuition_in_state then
      ⟨tuition_in_state.getD 0, []⟩
    else if !is_instate && truthyI tuition_out_state then
      ⟨tuition_out_state.getD 0, []⟩
    else if truthyI avg_net_price_public then
      ⟨avg_net_price_public.getD 0,
        ["Using average net price (tuition data unavailable)"]⟩
    else
      ⟨14000, ["Using estimated tuition (data unavailable)"]⟩
  else if ownership = some 2 then
    if truthyI avg_net_price_private then
      ⟨avg_net_price_private.getD 0, []⟩
    else if truthyI tuition_in_state then
      ⟨tuition_in_state.getD 0, []⟩
    else
      ⟨35000, ["Using estimated tuition (data unavailable)"]⟩
  else
    if truthyI tuition_in_state then
      ⟨tuition_in_state.getD 0, []⟩
    else if truthyI avg_net_price_private then
      ⟨avg_net_price_private.getD 0, []⟩
    else
      ⟨25000, ["Using estimated tuition (data unavailable)"]⟩

/-- Regional-adjustment block of `compute_kpis` (step 9): applied to the
1-year and 3-year earnings only, under truthiness guards on the region id,
the looked-up RPP index and each earnings figure. -/
def adjustEarnings (request : ComputeRequest)
    (rppRes : Except String (Option (Option ℚ)))
    (earnings_year_1 earnings_year_3 : Option ℤ) : Option ℤ × Option ℤ :=
  match request.postgrad_region_id with
  | none => (earnings_year_1, earnings_year_3)
  | some rid =>
    if rid = 0 then (earnings_year_1, earnings_year_3)
    else
      let rpp := get_regional_rpp rppRes
      let e1 :=
        if truthyQ rpp && truthyI earnings_year_1 then
          some (apply_regional_adjustment (earnings_year_1.getD 0) rpp)
        else earnings_year_1
      let e3 :=
        if truthyQ rpp && truthyI earnings_year_3 then
          some (apply_regional_adjustment (earnings_year_3.getD 0) rpp)
        else earnings_year_3
      (e1, e3)

/-- `AnalyticsService.compute_kpis`: the single-scenario orchestrator.
`instRes` embeds the institution query (`.error` = the database raised,
`.ok none` = institution missing, which the source raises as
`DataNotFoundException`); the remaining lookups degrade internally. -/
def compute_kpis (instRes : Except String (Option InstData))
    (progRes : Except String (Option ProgRow))
    (rentRes : Except String (Option (Option ℤ)))
    (rppRes : Except String (Option (Option ℚ)))
    (request : ComputeRequest) :
    Except CompError (KPIResult × Assumptions × List String) :=
  match instRes with
  | .error s => .error (.generic s)
  | .ok none => .error (.dataNotFound
      ("Institution " ++ toString request.institution_id ++ " not found"))
  | .ok (some inst_data) =>
    let assumptions := get_default_values
    let program_data := get_program_data progRes
    let warnings_program : List String :=
      if ¬ truthyI program_data.earn_1yr then
        ["No earnings data available for this program - using estimates"]
      else []
    let housing := resolveHousing request rentRes
    let food_monthly := request.food_monthly.getD assumptions.food_monthly
    let transport_monthly :=
      request.transport_monthly.getD assumptions.transport_monthly
    let utilities_monthly :=
      request.utilities_monthly.getD assumptions.utilities_monthly
    let misc_monthly := request.misc_monthly.getD assumptions.misc_monthly
    let books_annual := request.books_annual.getD assumptions.books_annual
    let tuition := resolveTuition inst_data.ownership request.is_instate
      inst_data.tuition_in_state inst_data.tuition_out_state
      inst_data.avg_net_price_public inst_data.avg_net_price_private
    let totals := calculate_total_cost tuition.tuition_fees
      housing.housing_annual food_monthly transport_monthly
      utilities_monthly misc_monthly books_annual
    let true_yearly_cost := totals.1
    let housing_annual := totals.2.1
    let other_expenses := totals.2.2
    let program_years := assumptions.program_years
    let expected_debt := calculate_debt true_yearly_cost request.aid_annual
      request.cash_annual program_years request.loan_apr
    let earnings := adjustEarnings request rppRes program_data.earn_1yr
      program_data.earn_3yr
    let earnings_year_1 := earnings.1
    let earnings_year_3 := earnings.2
    let earnings_year_5 := program_data.earn_5yr
    let total_investment := true_yearly_cost * (program_years : ℤ) -
      request.aid_annual * (program_years : ℤ)
    let roi := calculate_roi total_investment earnings_year_3
    let payback_years := calculate_payback_period expected_debt
      earnings_year_1 request.effective_tax_rate
    let dti_year_1 := calculate_dti expected_debt earnings_year_1
    let graduation_rate : ℚ := 3/4
    let comfort_index := calculate_comfort_index earnings_year_1
      expected_debt dti_year_1 (some graduation_rate)
    let kpis : KPIResult :=
      { true_yearly_cost := true_yearly_cost
        tuition_fees := tuition.tuition_fees
        housing_annual := housing_annual
        other_expenses := other_expenses
        expected_debt_at_grad := expected_debt
        earnings_year_1 := earnings_year_1
        earnings_year_3 := earnings_year_3
        earnings_year_5 := earnings_year_5
        roi := roi
        payback_years := payback_years
        dti_year_1 := dti_year_1
        graduation_rate := some graduation_rate
        comfort_index := comfort_index }
    .ok (kpis,
      { assumptions with rent_source := some housing.rent_source },
      warnings_program ++ housing.warnings ++ tuition.warnings)

/-! ## Multi-scenario comparison (`api/v1/compute.py`, `compare_scenarios`) -/

/-- Projection: the KPI record of a successful computation. -/
def okKpis (r : Except CompError (KPIResult × Assumptions × List String)) :
    Option KPIResult :=
  match r with
  | .ok (k, _, _) => some k
  | .error _ => none

/-- Projection: the assumptions record of a successful computation. -/
def okAssumptions
    (r : Except CompError (KPIResult × Assumptions × List String)) :
    Option Assumptions :=
  match r with
  | .ok (_, a, _) => some a
  | .error _ => none

/-- Projection: the warnings list of a successful computation. -/
def okWarnings
    (r : Except CompError (KPIResult × Assumptions × List String)) :
    Option (List String) :=
  match r with
  | .ok (_, _, w) => some w
  | .error _ => none

example : calculate_housing_cost 1200 0 = 14400 := by
  norm_num [calculate_housing_cost, pyInt]
example : calculate_housing_cost 1200 1 = 7200 := by
  norm_num [calculate_housing_cost, pyInt]
example : calculate_housing_cost 1800 1 = 10800 := by
  norm_num [calculate_housing_cost, pyInt]
example : calculate_debt 30000 5000 5000 4 0 = 80000 := by
  norm_num [calculate_debt, pyInt, Finset.sum_range_succ]
example : calculate_dti 28000 (some 75000) = some (37/100) := by
  norm_num [calculate_dti, truthyI, pyRound, round_eq]
example : calculate_roi 1000 (some 0) = none := by
  norm_num [calculate_roi, truthyI]
example : calculate_comfort_index (some 0) 0 none none = none := by
  norm_num [calculate_comfort_index, truthyI]
example : calculate_comfort_index (some 50000) 0 none none = some 50 := by
  norm_num [calculate_comfort_index, truthyI, earningsScore, debtScore,
    gradScore, pyRound, round_eq]

/-! ## Shared lemmas -/

/-- `pyInt` is the identity on integers. -/
lemma pyInt_intCast (z : ℤ) : pyInt (z : ℚ) = z := by
  unfold pyInt
  split
  · exact Int.floor_intCast z
  · exact Int.ceil_intCast z

/-- Nearest-integer rounding is monotone. -/
lemma round_mono {x y : ℚ} (h : x ≤ y) : round x ≤ round y := by
  rw [round_eq, round_eq]
  exact Int.floor_le_floor (by linarith)

/-- `pyRound` is monotone in its argument. -/
lemma pyRound_mono (d : ℕ) {x y : ℚ} (h : x ≤ y) :
    pyRound d x ≤ pyRound d y := by
  unfold pyRound
  have h10 : (0 : ℚ) < 10 ^ d := by positivity
  have hr : ((round (x * 10 ^ d) : ℤ) : ℚ) ≤ ((round (y * 10 ^ d) : ℤ) : ℚ) := by
    exact_mod_cast round_mono (show x * 10 ^ d ≤ y * 10 ^ d by nlinarith)
  gcongr


/-- `pyRound` maps `[lo, hi]` into `[lo, hi]` for integer bounds. -/
lemma pyRound_bounds (d : ℕ) {x : ℚ} {lo hi : ℤ} (hlo : (lo : ℚ) ≤ x)
    (hhi : x ≤ (hi : ℚ)) : (lo : ℚ) ≤ pyRound d x ∧ pyRound d x ≤ hi := by
  have h10 : (0 : ℚ) < 10 ^ d := by positivity
  have hl : ((lo * 10 ^ d : ℤ) : ℚ) ≤ (round (x * 10 ^ d) : ℚ) := by
    have h1 : round ((lo : ℚ) * 10 ^ d) ≤ round (x * 10 ^ d) :=
      round_mono (by nlinarith)
    rw [show ((lo : ℚ) * 10 ^ d) = ((lo * 10 ^ d : ℤ) : ℚ) by
      push_cast; ring, round_intCast] at h1
    exact_mod_cast h1
  have hh : (round (x * 10 ^ d) : ℚ) ≤ ((hi * 10 ^ d : ℤ) : ℚ) := by
    have h1 : round (x * 10 ^ d) ≤ round ((hi : ℚ) * 10 ^ d) :=
      round_mono (by nlinarith)
    rw [show ((hi : ℚ) * 10 ^ d) = ((hi * 10 ^ d : ℤ) : ℚ) by
      push_cast; ring, round_intCast] at h1
    exact_mod_cast h1
  constructor
  · rw [pyRound, le_div_iff₀ h10]
    push_cast at hl ⊢
    linarith
  · rw [pyRound, div_le_iff₀ h10]
    push_cast at hh ⊢
    linarith

/-! ## Claims -/

/-- **C10**: `calculate_roi` treats a present-but-zero earnings proxy
exactly like an absent one (both give `None` for positive investment），and
`calculate_comfort_index` returns `None` for zero first-year earnings just
as for absent earnings. -/
theorem zero_earnings_treated_as_absent :
    (∀ total_investment : ℤ, 0 < total_investment →
      calculate_roi total_investment (some 0) = none ∧
      calculate_roi total_investment (some 0) =
        calculate_roi total_investment none) ∧
    (∀ (total_debt : ℤ) (dti graduation_rate : Option ℚ),
      calculate_comfort_index (some 0) total_debt dti graduation_rate =
        none ∧
      calculate_comfort_index (some 0) total_debt dti graduation_rate =
        calculate_comfort_index none total_debt dti graduation_rate) := by
  constructor
  · intro ti _
    constructor <;> simp [calculate_roi, truthyI]
  · intro td dti g
    constructor <;> simp [calculate_comfort_index, truthyI]

/-- **C10 witness**: concrete instance at `total_investment = 1000`. -/
theorem zero_earnings_treated_as_absent_witness :
    calculate_roi 1000 (some 0) = none ∧
    calculate_comfort_index (some 0) 28000 (some (37/100)) (some (3/4)) =
      none := by
  exact ⟨(zero_earnings_treated_as_absent.1 1000 (by norm_num)).1,
    (zero_earnings_treated_as_absent.2 28000 (some (37/100))
      (some (3/4))).1⟩

/-- **C2**: `calculate_debt` returns 0 exactly when the annual need
`max 0 (yearly_cost − aid − cash)` is zero, otherwise the truncated sum of
per-year loans compounded forward; with zero APR it is exactly
`annual_need × program_years`. -/
theorem calculate_debt_spec :
    ∀ (yearly_cost aid_annual cash_annual : ℤ) (program_years : ℕ)
      (loan_apr : ℚ), 0 ≤ yearly_cost → 0 ≤ aid_annual → 0 ≤ cash_annual →
      0 ≤ loan_apr → loan_apr ≤ 1 →
      (max 0 (yearly_cost - aid_annual - cash_annual) = 0 →
        calculate_debt yearly_cost aid_annual cash_annual program_years
          loan_apr = 0) ∧
      (max 0 (yearly_cost - aid_annual - cash_annual) ≠ 0 →
        calculate_debt yearly_cost aid_annual cash_annual program_years
          loan_apr =
        pyInt (∑ year ∈ Finset.range program_years,
          ((max 0 (yearly_cost - aid_annual - cash_annual) : ℤ) : ℚ) *
            (1 + loan_apr) ^ (program_years - year - 1))) ∧
      (loan_apr = 0 →
        calculate_debt yearly_cost aid_annual cash_annual program_years
          loan_apr =
        max 0 (yearly_cost - aid_annual - cash_annual) * program_years) := by
  intro yearly_cost aid_annual cash_annual program_years loan_apr
    _ _ _ _ _
  refine ⟨?_, ?_, ?_⟩
  · intro h
    simp [calculate_debt, h]
  · intro h
    simp [calculate_debt, h]
  · intro h
    subst h
    unfold calculate_debt
    by_cases hn : max 0 (yearly_cost - aid_annual - cash_annual) = 0
    · simp [hn]
    · simp only [if_neg hn, add_zero, one_pow, mul_one,
        Finset.sum_const, Finset.card_range, nsmul_eq_mul]
      rw [show (program_years : ℚ) *
          ((max 0 (yearly_cost - aid_annual - cash_annual) : ℤ) : ℚ) =
          ((max 0 (yearly_cost - aid_annual - cash_annual) *
            (program_years : ℤ) : ℤ) : ℚ) by push_cast; ring]
      exact pyInt_intCast _

/-- **C2 witness**: the spec's own example, 30000/5000/5000 over 4 years
at zero APR gives exactly 80000. -/
theorem calculate_debt_spec_witness :
    calculate_debt 30000 5000 5000 4 0 = 80000 := by
  have h := (calculate_debt_spec 30000 5000 5000 4 0 (by norm_num)
    (by norm_num) (by norm_num) (by norm_num) (by norm_num)).2.2 rfl
  rw [h]
  norm_num

/-- **C3 counterexample**: a program row whose 1-year earnings are present
but equal to `0` (and 4-year earnings present) yields `earn_3yr = None`,
not the interpolated value the claim requires for all present pairs. -/
theorem earn3yr_present_zero_cex :
    (get_program_data (.ok (some
      ⟨some 0, some 90000, none, none, none, none, none⟩))).earn_3yr =
      none ∧
    (get_program_data (.ok (some
      ⟨some 0, some 90000, none, none, none, none, none⟩))).earn_3yr ≠
      some (pyInt (((0 : ℤ) : ℚ) +
        (((90000 : ℤ) : ℚ) - ((0 : ℤ) : ℚ)) * (2/3))) := by
  constructor
  · simp [get_program_data, truthyI]
  · simp [get_program_data, truthyI]

/-- **C3 amended**: for a fetched program row, `earn_3yr` is the truncated
linear interpolation `earn_1yr + (earn_4yr − earn_1yr)·(2/3)` when both
the 1-year and 4-year earnings are present *and non-zero* (the source
tests Python truthiness, not mere presence), and `None` when either is
absent or zero. -/
theorem earn3yr_interpolation :
    ∀ row : ProgRow,
      (∀ e1 e4 : ℤ, row.earnings_1yr = some e1 →
        row.earnings_4yr = some e4 → e1 ≠ 0 → e4 ≠ 0 →
        (get_program_data (.ok (some row))).earn_3yr =
          some (pyInt ((e1 : ℚ) + ((e4 : ℚ) - (e1 : ℚ)) * (2/3)))) ∧
      (row.earnings_1yr = none ∨ row.earnings_4yr = none ∨
        row.earnings_1yr = some 0 ∨ row.earnings_4yr = some 0 →
        (get_program_data (.ok (some row))).earn_3yr = none) := by
  intro row
  constructor
  · intro e1 e4 h1 h4 hne1 hne4
    simp [get_program_data, truthyI, h1, h4, hne1, hne4]
  · rintro (h | h | h | h) <;> simp [get_program_data, truthyI, h]

/-- **C3 witness**: the spec's example `earn_1yr = 75000`,
`earn_4yr = 95000` interpolates to `earn_3yr = 88333`. -/
theorem earn3yr_interpolation_witness :
    (get_program_data (.ok (some
      ⟨some 75000, some 95000, none, none, none, none, none⟩))).earn_3yr =
      some 88333 := by
  have h := (earn3yr_interpolation
    ⟨some 75000, some 95000, none, none, none, none, none⟩).1 75000 95000
    rfl rfl (by norm_num) (by norm_num)
  rw [h]
  norm_num [pyInt]

/-- The earnings sub-score is monotone in the earnings. -/
lemma earningsScore_mono {a b : ℤ} (h : a ≤ b) :
    earningsScore a ≤ earningsScore b := by
  unfold earningsScore
  have h' : (a : ℚ) ≤ b := by exact_mod_cast h
  gcongr

/-- The earnings sub-score is non-negative for non-negative earnings. -/
lemma earningsScore_nonneg {a : ℤ} (h : 0 ≤ a) : 0 ≤ earningsScore a := by
  unfold earningsScore
  have h' : (0 : ℚ) ≤ a := by exact_mod_cast h
  have : (0 : ℚ) ≤ (a : ℚ) / 100000 * 40 := by positivity
  exact le_min (by norm_num) this

/-- The earnings sub-score never exceeds 40. -/
lemma earningsScore_le40 (a : ℤ) : earningsScore a ≤ 40 := min_le_left _ _

/-- The debt sub-score always lies in `[0, 30]`. -/
lemma debtScore_bounds (dti : Option ℚ) :
    0 ≤ debtScore dti ∧ debtScore dti ≤ 30 := by
  rcases dti with _ | d
  · norm_num [debtScore]
  · have e : 30 * (1 - (d - 1/2) / (3/2)) = 40 - 20 * d := by ring
    simp only [debtScore]
    split_ifs with h1 h2 <;> constructor <;> linarith [e]

/-- The debt sub-score is antitone in the DTI. -/
lemma debtScore_anti {d d' : ℚ} (h : d ≤ d') :
    debtScore (some d') ≤ debtScore (some d) := by
  have e : ∀ t : ℚ, 30 * (1 - (t - 1/2) / (3/2)) = 40 - 20 * t :=
    fun t => by ring
  simp only [debtScore]
  split_ifs <;> linarith [e d, e d']

/-- The graduation sub-score lies in `[0, 30]` when the rate is absent or
in `[0, 1]`. -/
lemma gradScore_bounds (g : Option ℚ)
    (hg : ∀ gv : ℚ, g = some gv → 0 ≤ gv ∧ gv ≤ 1) :
    0 ≤ gradScore g ∧ gradScore g ≤ 30 := by
  rcases g with _ | gv
  · norm_num [gradScore]
  · obtain ⟨h0, h1⟩ := hg gv rfl
    simp only [gradScore]
    constructor <;> nlinarith

/-- **C4**: the comfort index is monotonically non-decreasing in the
first-year earnings (others fixed), non-increasing in the DTI (others
fixed), and every value it returns lies in `[0, 100]` (for non-negative
earnings and a graduation rate that is absent or in `[0, 1]`). -/
theorem comfort_index_monotone_bounded :
    (∀ (a b total_debt : ℤ) (dti graduation_rate : Option ℚ) (x y : ℚ),
      0 ≤ a → a ≤ b →
      calculate_comfort_index (some a) total_debt dti graduation_rate =
        some x →
      calculate_comfort_index (some b) total_debt dti graduation_rate =
        some y →
      x ≤ y) ∧
    (∀ (e total_debt : ℤ) (d d' : ℚ) (graduation_rate : Option ℚ)
      (x y : ℚ), d ≤ d' →
      calculate_comfort_index (some e) total_debt (some d)
        graduation_rate = some x →
      calculate_comfort_index (some e) total_debt (some d')
        graduation_rate = some y →
      y ≤ x) ∧
    (∀ (e total_debt : ℤ) (dti graduation_rate : Option ℚ) (c : ℚ),
      0 ≤ e →
      (∀ gv : ℚ, graduation_rate = some gv → 0 ≤ gv ∧ gv ≤ 1) →
      calculate_comfort_index (some e) total_debt dti graduation_rate =
        some c →
      0 ≤ c ∧ c ≤ 100) := by
  refine ⟨?_, ?_, ?_⟩
  · intro a b td dti g x y ha hab hx hy
    by_cases ha0 : a = 0
    · simp [calculate_comfort_index, truthyI, ha0] at hx
    · have hb0 : b ≠ 0 := by omega
      simp [calculate_comfort_index, truthyI, ha0, hb0] at hx hy
      subst hx hy
      exact pyRound_mono 1 (by
        have := earningsScore_mono hab
        linarith)
  · intro e td d d' g x y hdd hx hy
    by_cases he0 : e = 0
    · simp [calculate_comfort_index, truthyI, he0] at hx
    · simp [calculate_comfort_index, truthyI, he0] at hx hy
      subst hx hy
      exact pyRound_mono 1 (by
        have := debtScore_anti hdd
        linarith)
  · intro e td dti g c he hg hc
    by_cases he0 : e = 0
    · simp [calculate_comfort_index, truthyI, he0] at hc
    · simp [calculate_comfort_index, truthyI, he0] at hc
      subst hc
      have hes := earningsScore_nonneg he
      have hes' := earningsScore_le40 e
      have hds := debtScore_bounds dti
      have hgs := gradScore_bounds g hg
      have hb := @pyRound_bounds 1
        (earningsScore e + debtScore dti + gradScore g)
        0 100 (by push_cast; linarith) (by push_cast; linarith)
      constructor
      · exact_mod_cast hb.1
      · exact_mod_cast hb.2

/-- **C4 witness**: concrete instances — earnings 50000 vs 60000 raise the
index from 50 to 54; DTI 0.37 vs 1 lowers it from 65 to 55; the value at
earnings 50000 with graduation rate 3/4 is 57.5 ∈ [0, 100]. -/
theorem comfort_index_monotone_bounded_witness :
    (50 : ℚ) ≤ 54 ∧ (55 : ℚ) ≤ 65 ∧
    ((0 : ℚ) ≤ 115/2 ∧ (115/2 : ℚ) ≤ 100) := by
  refine ⟨?_, ?_, ?_⟩
  · exact comfort_index_monotone_bounded.1 50000 60000 0 none none 50 54
      (by norm_num) (by norm_num)
      (by norm_num [calculate_comfort_index, truthyI, earningsScore,
        debtScore, gradScore, pyRound, round_eq])
      (by norm_num [calculate_comfort_index, truthyI, earningsScore,
        debtScore, gradScore, pyRound, round_eq])
  · exact comfort_index_monotone_bounded.2.1 50000 0 (37/100) 1 none 65 55
      (by norm_num)
      (by norm_num [calculate_comfort_index, truthyI, earningsScore,
        debtScore, gradScore, pyRound, round_eq])
      (by norm_num [calculate_comfort_index, truthyI, earningsScore,
        debtScore, gradScore, pyRound, round_eq])
  · exact comfort_index_monotone_bounded.2.2 50000 0 none (some (3/4))
      (115/2) (by norm_num) (by rintro gv ⟨rfl⟩; norm_num)
      (by norm_num [calculate_comfort_index, truthyI, earningsScore,
        debtScore, gradScore, pyRound, round_eq])

/-- **C9**: a scenario with `housing_type = "none"` always yields
`housing_annual = 0` and the `rent_source` tag `"none"`, whatever the
roommate count or rent override. -/
theorem housing_none_zero :
    ∀ (instRes : Except String (Option InstData))
      (progRes : Except String (Option ProgRow))
      (rentRes : Except String (Option (Option ℤ)))
      (rppRes : Except String (Option (Option ℚ)))
      (request : ComputeRequest) (k : KPIResult) (a : Assumptions)
      (w : List String), request.housing_type = "none" →
      compute_kpis instRes progRes rentRes rppRes request = .ok (k, a, w) →
      k.housing_annual = 0 ∧ a.rent_source = some "none" := by
  intro instRes progRes rentRes rppRes request k a w hnone h
  match instRes with
  | .error s => simp [compute_kpis] at h
  | .ok none => simp [compute_kpis] at h
  | .ok (some inst) =>
    simp only [compute_kpis] at h
    injection h with h2
    rw [Prod.ext_iff] at h2
    obtain ⟨hk, h2⟩ := h2
    rw [Prod.ext_iff] at h2
    obtain ⟨ha, hw⟩ := h2
    subst hk
    subst ha
    simp [resolveHousing, hnone, calculate_total_cost]

/-- Scenario for the C9 witness: lives at home (`housing_type = "none"`)
but still supplies a rent override and roommates. -/
def reqC9 : ComputeRequest :=
  { institution_id := 1001
    cip_code := "11.0701"
    credential_level := 3
    is_instate := true
    housing_type := "none"
    roommate_count := 3
    postgrad_region_id := none
    rent_monthly := some 500
    utilities_monthly := none
    food_monthly := none
    transport_monthly := none
    books_annual := none
    misc_monthly := none
    aid_annual := 0
    cash_annual := 0
    loan_apr := 0
    effective_tax_rate := 0 }

/-- Public institution with in-state tuition 10000, for the C9 witness. -/
def instC9 : InstData :=
  { id := 1001, name := "State U", state_code := "CA", zip := "90210"
    ownership := some 1
    tuition_in_state := some 10000
    tuition_out_state := none
    avg_net_price_public := none
    avg_net_price_private := none }

/-- The KPI record the C9 witness scenario computes. -/
def kpisC9 : KPIResult :=
  { true_yearly_cost := 10000
    tuition_fees := 10000
    housing_annual := 0
    other_expenses := 0
    expected_debt_at_grad := 40000
    earnings_year_1 := none
    earnings_year_3 := none
    earnings_year_5 := none
    roi := none
    payback_years := none
    dti_year_1 := none
    graduation_rate := some (3/4)
    comfort_index := none }

/-- The assumptions record the C9 witness scenario computes. -/
def assumpC9 : Assumptions :=
  { program_years := 4
    food_monthly := 0
    transport_monthly := 0
    books_annual := 0
    misc_monthly := 0
    utilities_monthly := 0
    rent_source := some "none" }

/-- **C9 witness**: the concrete `housing_type = "none"` scenario (with a
rent override of 500 and 3 roommates) yields zero housing cost and the
`"none"` tag. -/
theorem housing_none_zero_witness :
    kpisC9.housing_annual = 0 ∧ assumpC9.rent_source = some "none" := by
  have heval : compute_kpis (.ok (some instC9)) (.ok none) (.ok none)
      (.ok none) reqC9 = .ok (kpisC9, assumpC9,
      ["No earnings data available for this program - using estimates"]) := by
    simp [compute_kpis, reqC9, instC9, kpisC9, assumpC9, get_program_data,
      get_default_values, resolveHousing, resolveTuition, adjustEarnings,
      calculate_total_cost, calculate_debt, calculate_roi,
      calculate_payback_period, calculate_dti, calculate_comfort_index,
      truthyI, truthyQ, Finset.sum_range_succ, pyInt,
      DEFAULT_PROGRAM_YEARS]
    norm_num
  exact housing_none_zero (.ok (some instC9)) (.ok none) (.ok none)
    (.ok none) reqC9 kpisC9 assumpC9
    ["No earnings data available for this program - using estimates"]
    rfl heval

/-- Public institution used by the C6 counterexample and witness. -/
def instC6 : InstData :=
  { id := 2002, name := "State U", state_code := "CA", zip := "90210"
    ownership := some 1
    tuition_in_state := some 14254
    tuition_out_state := none
    avg_net_price_public := none
    avg_net_price_private := none }

/-- Scenario with a rent override of exactly 0 (valid per the schema,
which only requires `ge=0`). -/
def reqC6z : ComputeRequest :=
  { institution_id := 2002
    cip_code := "11.0701"
    credential_level := 3
    is_instate := true
    housing_type := "1BR"
    roommate_count := 0
    postgrad_region_id := none
    rent_monthly := some 0
    utilities_monthly := none
    food_monthly := none
    transport_monthly := none
    books_annual := none
    misc_monthly := none
    aid_annual := 0
    cash_annual := 0
    loan_apr := 0
    effective_tax_rate := 0 }

/-- **C6 counterexample**: with a supplied `rent_monthly = 0` the source
takes the FMR-lookup branch (`elif request.rent_monthly:` is falsy at 0):
the tag is `"hud_fmr"`, not `"user_provided"`, and the external lookup's
value (800 vs 900 a month) flows into the housing cost. -/
theorem rent_override_zero_cex :
    (okAssumptions (compute_kpis (.ok (some instC6)) (.ok none)
      (.ok (some (some 800))) (.ok none) reqC6z)).map
      Assumptions.rent_source = some (some "hud_fmr") ∧
    (okAssumptions (compute_kpis (.ok (some instC6)) (.ok none)
      (.ok (some (some 800))) (.ok none) reqC6z)).map
      Assumptions.rent_source ≠ some (some "user_provided") ∧
    (okKpis (compute_kpis (.ok (some instC6)) (.ok none)
      (.ok (some (some 800))) (.ok none) reqC6z)).map
      KPIResult.housing_annual = some 9600 ∧
    (okKpis (compute_kpis (.ok (some instC6)) (.ok none)
      (.ok (some (some 900))) (.ok none) reqC6z)).map
      KPIResult.housing_annual = some 10800 := by
  refine ⟨?_, ?_, ?_, ?_⟩ <;>
    simp [compute_kpis, reqC6z, instC6, get_program_data,
      get_default_values, resolveHousing, resolveTuition, adjustEarnings,
      get_housing_cost, calculate_total_cost, calculate_housing_cost,
      calculate_debt, calculate_roi, calculate_payback_period,
      calculate_dti, calculate_comfort_index, truthyI, truthyQ,
      Finset.sum_range_succ, pyInt, DEFAULT_PROGRAM_YEARS, okKpis,
      okAssumptions] <;> norm_num

/-- **C6 amended**: a *positive* `rent_monthly` override tags the rent
source `"user_provided"`, feeds the override into
`calculate_housing_cost` with the scenario's roommate count, and leaves
the rent lookup unconsulted (the result is invariant under the lookup's
outcome); an override of exactly 0 instead falls through to the FMR
lookup path. -/
theorem rent_override_positive :
    ∀ (instRes : Except String (Option InstData))
      (progRes : Except String (Option ProgRow))
      (rentRes rentRes' : Except String (Option (Option ℤ)))
      (rppRes : Except String (Option (Option ℚ)))
      (request : ComputeRequest) (r : ℤ),
      request.housing_type ≠ "none" → request.rent_monthly = some r →
      0 < r →
      compute_kpis instRes progRes rentRes rppRes request =
        compute_kpis instRes progRes rentRes' rppRes request ∧
      (∀ (k : KPIResult) (a : Assumptions) (w : List String),
        compute_kpis instRes progRes rentRes rppRes request =
          .ok (k, a, w) →
        a.rent_source = some "user_provided" ∧
        k.housing_annual =
          calculate_housing_cost r request.roommate_count) := by
  intro instRes progRes rentRes rentRes' rppRes request r hnot hrm hr
  have hres : ∀ rr : Except String (Option (Option ℤ)),
      resolveHousing request rr =
        ⟨r, calculate_housing_cost r request.roommate_count,
          "user_provided", []⟩ := by
    intro rr
    simp [resolveHousing, hnot, hrm, truthyI, hr.ne']
  constructor
  · match instRes with
    | .error s => rfl
    | .ok none => rfl
    | .ok (some inst) =>
      simp only [compute_kpis, hres]
  · intro k a w h
    match instRes with
    | .error s => simp [compute_kpis] at h
    | .ok none => simp [compute_kpis] at h
    | .ok (some inst) =>
      simp only [compute_kpis] at h
      injection h with h2
      rw [Prod.ext_iff] at h2
      obtain ⟨hk, h2⟩ := h2
      rw [Prod.ext_iff] at h2
      obtain ⟨ha, hw⟩ := h2
      subst hk
      subst ha
      simp [hres, calculate_total_cost]

/-- Scenario with a positive rent override of 750 and one roommate, for
the C6 witness. -/
def reqC6w : ComputeRequest :=
  { institution_id := 2002
    cip_code := "11.0701"
    credential_level := 3
    is_instate := true
    housing_type := "1BR"
    roommate_count := 1
    postgrad_region_id := none
    rent_monthly := some 750
    utilities_monthly := none
    food_monthly := none
    transport_monthly := none
    books_annual := none
    misc_monthly := none
    aid_annual := 0
    cash_annual := 0
    loan_apr := 0
    effective_tax_rate := 0 }

/-- KPI record computed by the C6 witness scenario. -/
def kpisC6w : KPIResult :=
  { true_yearly_cost := 18754
    tuition_fees := 14254
    housing_annual := 4500
    other_expenses := 0
    expected_debt_at_grad := 75016
    earnings_year_1 := none
    earnings_year_3 := none
    earnings_year_5 := none
    roi := none
    payback_years := none
    dti_year_1 := none
    graduation_rate := some (3/4)
    comfort_index := none }

/-- Assumptions record computed by the C6 witness scenario. -/
def assumpC6w : Assumptions :=
  { program_years := 4
    food_monthly := 0
    transport_monthly := 0
    books_annual := 0
    misc_monthly := 0
    utilities_monthly := 0
    rent_source := some "user_provided" }

/-- **C6 witness**: rent override 750 with one roommate gives the
`"user_provided"` tag and `calculate_housing_cost 750 1 = 4500`. -/
theorem rent_override_positive_witness :
    assumpC6w.rent_source = some "user_provided" ∧
    kpisC6w.housing_annual = calculate_housing_cost 750 1 := by
  have heval : compute_kpis (.ok (some instC6)) (.ok none) (.ok none)
      (.ok none) reqC6w = .ok (kpisC6w, assumpC6w,
      ["No earnings data available for this program - using estimates"]) := by
    simp [compute_kpis, reqC6w, instC6, kpisC6w, assumpC6w,
      get_program_data, get_default_values, resolveHousing, resolveTuition,
      adjustEarnings, calculate_total_cost, calculate_housing_cost,
      calculate_debt, calculate_roi, calculate_payback_period,
      calculate_dti, calculate_comfort_index, truthyI, truthyQ,
      Finset.sum_range_succ, pyInt, DEFAULT_PROGRAM_YEARS]
    norm_num
  exact (rent_override_positive (.ok (some instC6)) (.ok none) (.ok none)
    (.ok none) (.ok none) reqC6w 750 (by simp [reqC6w]) rfl
    (by norm_num)).2 kpisC6w assumpC6w
    ["No earnings data available for this program - using estimates"]
    heval

/-- Public institution with a present-but-zero in-state tuition and an
average net price of 9999, for C5. -/
def instC5 : InstData :=
  { id := 3003, name := "Free State U", state_code := "NY", zip := "10001"
    ownership := some 1
    tuition_in_state := some 0
    tuition_out_state := none
    avg_net_price_public := some 9999
    avg_net_price_private := none }

/-- In-state scenario at `instC5`, for C5. -/
def reqC5 : ComputeRequest :=
  { institution_id := 3003
    cip_code := "11.0701"
    credential_level := 3
    is_instate := true
    housing_type := "none"
    roommate_count := 0
    postgrad_region_id := none
    rent_monthly := none
    utilities_monthly := none
    food_monthly := none
    transport_monthly := none
    books_annual := none
    misc_monthly := none
    aid_annual := 0
    cash_annual := 0
    loan_apr := 0
    effective_tax_rate := 0 }

/-- Program row with truthy 1-year earnings (no program warning). -/
def rowC5 : ProgRow := ⟨some 50000, none, none, none, none, none, none⟩

/-- **C5 counterexample**: a public in-state scenario whose in-state
tuition is present but `0` does *not* resolve to that tuition: the source
tests truthiness, falls through to the average net price (9999), and
appends the net-price warning on what the claim calls a non-fallback
path. -/
theorem public_tuition_present_zero_cex :
    (okKpis (compute_kpis (.ok (some instC5)) (.ok (some rowC5))
      (.ok none) (.ok none) reqC5)).map KPIResult.tuition_fees =
      some 9999 ∧
    (okKpis (compute_kpis (.ok (some instC5)) (.ok (some rowC5))
      (.ok none) (.ok none) reqC5)).map KPIResult.tuition_fees ≠
      some 0 ∧
    okWarnings (compute_kpis (.ok (some instC5)) (.ok (some rowC5))
      (.ok none) (.ok none) reqC5) =
      some ["Using average net price (tuition data unavailable)"] := by
  refine ⟨?_, ?_, ?_⟩ <;>
    simp [compute_kpis, reqC5, instC5, rowC5, get_program_data,
      get_default_values, resolveHousing, resolveTuition, adjustEarnings,
      get_housing_cost, calculate_total_cost, calculate_housing_cost,
      calculate_debt, calculate_roi, calculate_payback_period,
      calculate_dti, calculate_comfort_index, truthyI, truthyQ,
      Finset.sum_range_succ, pyInt, DEFAULT_PROGRAM_YEARS, okKpis,
      okWarnings] <;> norm_num

/-- **C5 amended**: for a public institution the tuition cascade is: the
in-state tuition when resident and that figure is present *and non-zero*;
else the out-of-state tuition when non-resident and present and non-zero;
else the average net price (public) when present and non-zero, with
exactly one warning; else the fixed 14000 fallback with exactly one
warning — no warning on the first two paths.  `compute_kpis` reports
exactly the tuition this cascade resolves and appends exactly its
warnings after the program/housing ones. -/
theorem public_tuition_cascade :
    ∀ (is_instate : Bool) (tis tos anp anpp : Option ℤ),
      ((is_instate && truthyI tis) = true →
        resolveTuition (some 1) is_instate tis tos anp anpp =
          ⟨tis.getD 0, []⟩) ∧
      ((is_instate && truthyI tis) = false →
       (!is_instate && truthyI tos) = true →
        resolveTuition (some 1) is_instate tis tos anp anpp =
          ⟨tos.getD 0, []⟩) ∧
      ((is_instate && truthyI tis) = false →
       (!is_instate && truthyI tos) = false →
       truthyI anp = true →
        resolveTuition (some 1) is_instate tis tos anp anpp =
          ⟨anp.getD 0,
            ["Using average net price (tuition data unavailable)"]⟩) ∧
      ((is_instate && truthyI tis) = false →
       (!is_instate && truthyI tos) = false →
       truthyI anp = false →
        resolveTuition (some 1) is_instate tis tos anp anpp =
          ⟨14000, ["Using estimated tuition (data unavailable)"]⟩) ∧
      (∀ (inst : InstData) (progRes : Except String (Option ProgRow))
        (rentRes : Except String (Option (Option ℤ)))
        (rppRes : Except String (Option (Option ℚ)))
        (request : ComputeRequest) (k : KPIResult) (a : Assumptions)
        (w : List String),
        compute_kpis (.ok (some inst)) progRes rentRes rppRes request =
          .ok (k, a, w) →
        k.tuition_fees = (resolveTuition inst.ownership request.is_instate
          inst.tuition_in_state inst.tuition_out_state
          inst.avg_net_price_public inst.avg_net_price_private).tuition_fees
        ∧ ∃ pre : List String, w = pre ++ (resolveTuition inst.ownership
          request.is_instate inst.tuition_in_state inst.tuition_out_state
          inst.avg_net_price_public
          inst.avg_net_price_private).warnings) := by
  intro is_instate tis tos anp anpp
  refine ⟨?_, ?_, ?_, ?_, ?_⟩
  · intro h1
    simp [resolveTuition, h1]
  · intro h1 h2
    simp [resolveTuition, h1, h2]
  · intro h1 h2 h3
    simp [resolveTuition, h1, h2, h3]
  · intro h1 h2 h3
    simp [resolveTuition, h1, h2, h3]
  · intro inst progRes rentRes rppRes request k a w h
    simp only [compute_kpis] at h
    have hkk := congrArg okKpis h
    have hww := congrArg okWarnings h
    simp only [okKpis, okWarnings, Option.some.injEq] at hkk hww
    subst hkk
    constructor
    · rfl
    · exact ⟨_, hww.symm⟩

/-- **C5 witness**: with in-state tuition 14254 present the first branch
fires with no warning; with in-state tuition 0 (falsy) and an average net
price of 9999 the net-price fallback fires with its single warning. -/
theorem public_tuition_cascade_witness :
    resolveTuition (some 1) true (some 14254) none none none =
      ⟨14254, []⟩ ∧
    resolveTuition (some 1) true (some 0) none (some 9999) none =
      ⟨9999, ["Using average net price (tuition data unavailable)"]⟩ := by
  constructor
  · exact (public_tuition_cascade true (some 14254) none none none).1
      (by decide)
  · exact (public_tuition_cascade true (some 0) none
      (some 9999) none).2.2.1 (by decide) (by decide) (by decide)

/-- Public institution for the C1 counterexample. -/
def instC1 : InstData :=
  { id := 4004, name := "State U", state_code := "CA", zip := "90210"
    ownership := some 1
    tuition_in_state := some 14254
    tuition_out_state := none
    avg_net_price_public := none
    avg_net_price_private := none }

/-- Scenario with a post-graduation region whose RPP index is 500, for
the C1 counterexample. -/
def reqC1 : ComputeRequest :=
  { institution_id := 4004
    cip_code := "11.0701"
    credential_level := 3
    is_instate := true
    housing_type := "none"
    roommate_count := 0
    postgrad_region_id := some 5
    rent_monthly := none
    utilities_monthly := none
    food_monthly := none
    transport_monthly := none
    books_annual := none
    misc_monthly := none
    aid_annual := 0
    cash_annual := 0
    loan_apr := 0
    effective_tax_rate := 0 }

/-- Program row with tiny earnings (1), for the C1 counterexample. -/
def rowC1 : ProgRow :=
  ⟨some 1, some 1, some 115000, none, none, none, none⟩

/-- **C1 counterexample**: after the regional adjustment by an RPP index
of 500, the 3-year proxy is present and equal to 0 and the total
investment is 57016 > 0, yet the ROI is `None` — not the
`round((0·5 − 57016)/57016, 2) = −1.0` the claim requires for every
present proxy. -/
theorem roi_present_zero_proxy_cex :
    (okKpis (compute_kpis (.ok (some instC1)) (.ok (some rowC1))
      (.ok none) (.ok (some (some 500))) reqC1)).map
      KPIResult.earnings_year_3 = some (some 0) ∧
    (okKpis (compute_kpis (.ok (some instC1)) (.ok (some rowC1))
      (.ok none) (.ok (some (some 500))) reqC1)).map KPIResult.roi =
      some none ∧
    (okKpis (compute_kpis (.ok (some instC1)) (.ok (some rowC1))
      (.ok none) (.ok (some (some 500))) reqC1)).map
      (fun k => k.true_yearly_cost * 4 - reqC1.aid_annual * 4) =
      some 57016 ∧
    (0 : ℤ) < 57016 ∧
    (none : Option ℚ) ≠
      some (pyRound 2 ((((0 : ℤ) : ℚ) * 5 - 57016) / 57016)) := by
  refine ⟨?_, ?_, ?_, by norm_num, by simp⟩ <;>
    simp [compute_kpis, reqC1, instC1, rowC1, get_program_data,
      get_default_values, resolveHousing, resolveTuition, adjustEarnings,
      get_housing_cost, get_regional_rpp, apply_regional_adjustment,
      calculate_total_cost, calculate_housing_cost, calculate_debt,
      calculate_roi, calculate_payback_period, calculate_dti,
      calculate_comfort_index, truthyI, truthyQ, Finset.sum_range_succ,
      pyInt, DEFAULT_PROGRAM_YEARS, okKpis] <;> norm_num

/-- **C1 amended**: `compute_kpis` computes the ROI as
`calculate_roi` of `total_investment = true_yearly_cost·4 − aid_annual·4`
with the (possibly regionally adjusted) 3-year earnings as the proxy;
that equals `round((proxy·5 − total_investment)/total_investment, 2)`
when the proxy is present *and non-zero* and the investment is positive,
and is `None` otherwise (a zero proxy counts as absent); the 5-year
earnings figure never influences the ROI. -/
theorem roi_uses_adjusted_3yr_proxy :
    (∀ (instRes : Except String (Option InstData))
      (progRes : Except String (Option ProgRow))
      (rentRes : Except String (Option (Option ℤ)))
      (rppRes : Except String (Option (Option ℚ)))
      (request : ComputeRequest) (k : KPIResult) (a : Assumptions)
      (w : List String),
      compute_kpis instRes progRes rentRes rppRes request = .ok (k, a, w) →
      k.roi = calculate_roi
        (k.true_yearly_cost * 4 - request.aid_annual * 4)
        k.earnings_year_3) ∧
    (∀ ti e : ℤ, 0 < ti → e ≠ 0 →
      calculate_roi ti (some e) =
        some (pyRound 2 (((e : ℚ) * 5 - ti) / ti))) ∧
    (∀ (ti : ℤ) (e : Option ℤ), truthyI e = false ∨ ti ≤ 0 →
      calculate_roi ti e = none) ∧
    (∀ (instRes : Except String (Option InstData)) (row : ProgRow)
      (v : Option ℤ) (rentRes : Except String (Option (Option ℤ)))
      (rppRes : Except String (Option (Option ℚ)))
      (request : ComputeRequest),
      (okKpis (compute_kpis instRes
        (.ok (some { row with earnings_5yr := v })) rentRes rppRes
        request)).map KPIResult.roi =
      (okKpis (compute_kpis instRes (.ok (some row)) rentRes rppRes
        request)).map KPIResult.roi) := by
  refine ⟨?_, ?_, ?_, ?_⟩
  · intro instRes progRes rentRes rppRes request k a w h
    match instRes with
    | .error s => simp [compute_kpis] at h
    | .ok none => simp [compute_kpis] at h
    | .ok (some inst) =>
      simp only [compute_kpis] at h
      have hkk := congrArg okKpis h
      simp only [okKpis, Option.some.injEq] at hkk
      subst hkk
      simp [get_default_values, DEFAULT_PROGRAM_YEARS]
  · intro ti e hti he
    have hcond : ¬(¬ truthyI (some e) = true ∨ ti ≤ 0) := by
      simp [truthyI, he, not_le.mpr hti]
    simp only [calculate_roi, if_neg hcond, Option.getD_some,
      Option.some.injEq]
    congr 1
    push_cast
    ring
  · intro ti e h
    rcases h with h | h
    · simp [calculate_roi, h]
    · simp [calculate_roi, h]
  · intro instRes row v rentRes rppRes request
    match instRes with
    | .error s => rfl
    | .ok none => rfl
    | .ok (some inst) =>
      cases row
      simp [compute_kpis, get_program_data, okKpis]

/-- **C1 witness**: `calculate_roi 1000 (some 300)` equals the rounded
`(300·5 − 1000)/1000 = 0.5`. -/
theorem roi_uses_adjusted_3yr_proxy_witness :
    calculate_roi 1000 (some 300) =
      some (pyRound 2 ((((300 : ℤ) : ℚ) * 5 - 1000) / 1000)) :=
  roi_uses_adjusted_3yr_proxy.2.1 1000 300 (by norm_num) (by norm_num)

/-- Public institution for the C8 counterexample. -/
def instC8 : InstData :=
  { id := 5005, name := "State U", state_code := "CA", zip := "90210"
    ownership := some 1
    tuition_in_state := some 14254
    tuition_out_state := none
    avg_net_price_public := none
    avg_net_price_private := none }

/-- Scenario needing the rent lookup (no override), for C8. -/
def reqC8 : ComputeRequest :=
  { institution_id := 5005
    cip_code := "11.0701"
    credential_level := 3
    is_instate := true
    housing_type := "1BR"
    roommate_count := 0
    postgrad_region_id := none
    rent_monthly := none
    utilities_monthly := none
    food_monthly := none
    transport_monthly := none
    books_annual := none
    misc_monthly := none
    aid_annual := 0
    cash_annual := 0
    loan_apr := 0
    effective_tax_rate := 0 }

/-- Program row with truthy 1-year earnings, for C8. -/
def rowC8 : ProgRow :=
  ⟨some 50000, none, none, none, none, none, none⟩

/-- **C8 counterexample**: a rent lookup that *raises* is not surfaced as
a computation failure: the run succeeds, the raised error is silently
converted into the $1200 fallback (tag `"hud_fmr"`, housing 14400, the
FMR warning), and the outcome is identical to a lookup that merely
returned nothing. -/
theorem rent_lookup_error_swallowed_cex :
    okKpis (compute_kpis (.ok (some instC8)) (.ok (some rowC8))
      (.error "db connection lost") (.ok none) reqC8) ≠ none ∧
    (okAssumptions (compute_kpis (.ok (some instC8)) (.ok (some rowC8))
      (.error "db connection lost") (.ok none) reqC8)).map
      Assumptions.rent_source = some (some "hud_fmr") ∧
    (okKpis (compute_kpis (.ok (some instC8)) (.ok (some rowC8))
      (.error "db connection lost") (.ok none) reqC8)).map
      KPIResult.housing_annual = some 14400 ∧
    okWarnings (compute_kpis (.ok (some instC8)) (.ok (some rowC8))
      (.error "db connection lost") (.ok none) reqC8) =
      some ["No FMR data for ZIP code - using default $1200/month"] ∧
    compute_kpis (.ok (some instC8)) (.ok (some rowC8))
      (.error "db connection lost") (.ok none) reqC8 =
      compute_kpis (.ok (some instC8)) (.ok (some rowC8)) (.ok none)
        (.ok none) reqC8 := by
  refine ⟨?_, ?_, ?_, ?_, rfl⟩ <;>
    simp [compute_kpis, reqC8, instC8, rowC8, get_program_data,
      get_default_values, resolveHousing, resolveTuition, adjustEarnings,
      get_housing_cost, get_regional_rpp, calculate_total_cost,
      calculate_housing_cost, calculate_debt, calculate_roi,
      calculate_payback_period, calculate_dti, calculate_comfort_index,
      truthyI, truthyQ, Finset.sum_range_succ, pyInt,
      DEFAULT_PROGRAM_YEARS, okKpis, okAssumptions, okWarnings] <;>
    norm_num

/-- **C8 amended**: per lookup — an institution query error surfaces as a
generic failure and a missing institution as not-found, both aborting the
scenario; but errors raised by the program, rent or price-parity lookups
never surface: each is treated exactly like an absent result (all-`None`
program record; $1200 rent fallback; no regional adjustment) and the
computation still succeeds. -/
theorem lookup_error_handling :
    (∀ (inst : InstData) (progRes : Except String (Option ProgRow))
      (rentRes : Except String (Option (Option ℤ)))
      (rppRes : Except String (Option (Option ℚ)))
      (request : ComputeRequest),
      okKpis (compute_kpis (.ok (some inst)) progRes rentRes rppRes
        request) ≠ none) ∧
    (∀ s : String, get_program_data (.error s) =
      get_program_data (.ok none)) ∧
    (∀ (s : String) (instRes : Except String (Option InstData))
      (progRes : Except String (Option ProgRow))
      (rppRes : Except String (Option (Option ℚ)))
      (request : ComputeRequest),
      compute_kpis instRes progRes (.error s) rppRes request =
        compute_kpis instRes progRes (.ok none) rppRes request) ∧
    (∀ (s : String) (instRes : Except String (Option InstData))
      (progRes : Except String (Option ProgRow))
      (rentRes : Except String (Option (Option ℤ)))
      (request : ComputeRequest),
      compute_kpis instRes progRes rentRes (.error s) request =
        compute_kpis instRes progRes rentRes (.ok none) request) ∧
    (∀ (s : String) (progRes : Except String (Option ProgRow))
      (rentRes : Except String (Option (Option ℤ)))
      (rppRes : Except String (Option (Option ℚ)))
      (request : ComputeRequest),
      compute_kpis (.error s) progRes rentRes rppRes request =
        .error (.generic s)) ∧
    (∀ (progRes : Except String (Option ProgRow))
      (rentRes : Except String (Option (Option ℤ)))
      (rppRes : Except String (Option (Option ℚ)))
      (request : ComputeRequest),
      compute_kpis (.ok none) progRes rentRes rppRes request =
        .error (.dataNotFound ("Institution " ++
          toString request.institution_id ++ " not found"))) := by
  refine ⟨?_, ?_, ?_, ?_, ?_, ?_⟩
  · intro inst progRes rentRes rppRes request
    simp [compute_kpis, okKpis]
  · intro s
    rfl
  · intro s instRes progRes rppRes request
    match instRes with
    | .error s' => rfl
    | .ok none => rfl
    | .ok (some inst) =>
      have hres : resolveHousing request (.error s) =
          resolveHousing request (.ok none) := by
        simp [resolveHousing, get_housing_cost]
      simp only [compute_kpis, hres]
  · intro s instRes progRes rentRes request
    match instRes with
    | .error s' => rfl
    | .ok none => rfl
    | .ok (some inst) =>
      have hadj : ∀ e1 e3 : Option ℤ,
          adjustEarnings request (.error s) e1 e3 =
            adjustEarnings request (.ok none) e1 e3 := by
        intro e1 e3
        simp [adjustEarnings, get_regional_rpp]
      simp only [compute_kpis, hadj]
  · intro s progRes rentRes rppRes request
    rfl
  · intro progRes rentRes rppRes request
    rfl

